import Mathlib

/-!
Shallow embedding of the identity / access-control / registration-code core
of src/backend/main.py (FastAPI + Supabase backend of the dietolog agent).

Modelling conventions:
  - Supabase tables become lists of records inside a single DB structure;
    a select-with-eq-filter becomes List.filter, insert appends, update maps,
    delete filters out.
  - HTTPException(status_code, detail) becomes the HTTPError structure;
    every handler returns Except HTTPError of its success payload.
  - datetime.utcnow() becomes an explicit Nat timestamp parameter now
    (seconds); timedelta(minutes=m) becomes m * 60.
  - bcrypt is external: checkpw is passed in as a function
    String to String to Option Bool, where none models the ValueError /
    TypeError raised on a malformed salt (caught by verify_password), and
    hashpw is passed in as an arbitrary String to String function.
  - PyJWT is modelled by the JWTToken structure: encoding with a secret key
    stores the key as the signature; decoding checks the key matches and the
    expiry is in the future.
  - Python truthiness of an optional string column (used_by) is the truthy
    function: None and the empty string are falsy.
-/

namespace NutritionBot

/-- Model of fastapi.HTTPException: a status code and a detail string. -/
structure HTTPError where
  statusCode : Nat
  detail : String
deriving Repr, DecidableEq

/-- Row of the admins or trainers table (shared shape). -/
structure Identity where
  id : String
  email : String
  passwordHash : String
  name : String
  isActive : Bool
deriving Repr, DecidableEq

/-- Row of the registration_codes table. -/
structure RegCode where
  id : String
  code : String
  createdBy : String
  expiresAt : Option Nat
  isUsed : Bool
  usedBy : Option String
deriving Repr, DecidableEq

/-- Row of the trainer_questions table (columns content and step, per the
actual DB schema used by the source). -/
structure Question where
  id : String
  trainerId : String
  categoryId : String
  content : String
  step : Nat
  updatedAt : Option Nat
deriving Repr, DecidableEq

/-- The persistent store: the tables touched by the auth core. -/
structure DB where
  admins : List Identity
  trainers : List Identity
  regCodes : List RegCode
  questions : List Question
deriving Repr, DecidableEq

/-- The response model UserInfo of main.py. -/
structure UserInfo where
  id : String
  email : String
  name : String
  role : String
deriving Repr, DecidableEq

/-- The caller record produced by get_current_user: the row fields the
policy gates actually consult (id and the attached role tag). -/
structure CurrentUser where
  id : String
  role : String
deriving Repr, DecidableEq

/-- JWT claim set built by create_access_token: sub, type, exp. -/
structure TokenPayload where
  sub : String
  utype : String
  exp : Nat
deriving Repr, DecidableEq

/-- Model of an encoded JWT: the claim set plus the key it was signed with
(standing in for the HMAC signature). -/
structure JWTToken where
  payload : TokenPayload
  sig : String
deriving Repr, DecidableEq

/-- Python truthiness of an optional string column: None and the empty
string are falsy. -/
def truthy : Option String → Bool
  | none => false
  | some s => s ≠ ""

/-- ACCESS_TOKEN_EXPIRE_MINUTES = 180 (main.py line 26). -/
def ACCESS_TOKEN_EXPIRE_MINUTES : Nat := 180

/-- create_access_token (main.py lines 187-193): expiry is utcnow plus
ACCESS_TOKEN_EXPIRE_MINUTES, and the payload is signed with the secret. -/
def create_access_token (secret : String) (now : Nat) (sub utype : String) :
    JWTToken :=
  { payload := { sub := sub, utype := utype,
                 exp := now + ACCESS_TOKEN_EXPIRE_MINUTES * 60 }
    sig := secret }

/-- jwt.decode as used in get_current_user (main.py line 198): succeeds only
when the signature verifies against the secret and the expiry is still in
the future; any failure (signature mismatch or expiry) is PyJWTError,
modelled as none. -/
def jwt_decode (secret : String) (now : Nat) (tok : JWTToken) :
    Option TokenPayload :=
  if tok.sig = secret ∧ now < tok.payload.exp then some tok.payload else none

/-- Python str.startswith, on the character lists of the strings. -/
def startswith (s pre : String) : Bool :=
  pre.data.isPrefixOf s.data

/-- Bcrypt format guard of verify_password (main.py line 177): the stored
digest must carry one of the bcrypt algorithm tags. -/
def valid_bcrypt_format (hashed : String) : Bool :=
  startswith hashed "$2a$" || startswith hashed "$2b$" || startswith hashed "$2y$"

/-- verify_password (main.py lines 174-185). checkpw models bcrypt.checkpw;
none models the ValueError / TypeError it can raise, which the source
catches and turns into False. A digest without a bcrypt tag is rejected
with False before checkpw is consulted. -/
def verify_password (checkpw : String → String → Option Bool)
    (password hashed : String) : Bool :=
  if valid_bcrypt_format hashed then
    match checkpw password hashed with
    | some b => b
    | none => false
  else false

/-- require_admin (main.py lines 231-234). -/
def require_admin (u : CurrentUser) : Except HTTPError CurrentUser :=
  if u.role = "admin" then .ok u
  else .error { statusCode := 403, detail := "Admin access required" }

/-- require_trainer_or_admin (main.py lines 236-239). -/
def require_trainer_or_admin (u : CurrentUser) : Except HTTPError CurrentUser :=
  if u.role = "admin" ∨ u.role = "trainer" then .ok u
  else .error { statusCode := 403, detail := "Trainer or admin access required" }

/-- Supabase select on registration_codes filtered by the id column, as done
at the top of the deactivate / activate / delete handlers. -/
def find_code_by_id (db : DB) (codeId : String) : List RegCode :=
  db.regCodes.filter (fun c => c.id == codeId)

/-- Supabase select on registration_codes filtered by the code column, as
done by the register handler (main.py line 281). -/
def find_code_by_string (db : DB) (code : String) : List RegCode :=
  db.regCodes.filter (fun c => c.code == code)

/-- Supabase select on admins filtered by email (main.py lines 251, 308). -/
def find_admin_by_email (db : DB) (email : String) : List Identity :=
  db.admins.filter (fun a => a.email == email)

/-- Supabase select on trainers filtered by email (main.py lines 259, 309). -/
def find_trainer_by_email (db : DB) (email : String) : List Identity :=
  db.trainers.filter (fun t => t.email == email)

/-- Expiry test of the register handler (main.py lines 301-305): expired
exactly when an expiry is stored and utcnow is strictly past it. -/
def code_expired (now : Nat) (rc : RegCode) : Bool :=
  match rc.expiresAt with
  | some e => decide (now > e)
  | none => false

/-- The token response model of the login route. -/
structure TokenOut where
  access_token : JWTToken
  token_type : String
deriving Repr, DecidableEq

/-- login (main.py lines 242-271). The hardcoded development credentials
(main.py lines 246-248) are checked first, before any table lookup. If an
admin row with the email exists but the password fails to verify, the flow
falls through to the trainers table; only after both tables fail is 401
raised. -/
def login (checkpw : String → String → Option Bool) (secret : String)
    (now : Nat) (db : DB) (email password : String) :
    Except HTTPError TokenOut :=
  if email = "admin@nutritionbot.com" ∧ password = "admin123" then
    .ok { access_token := create_access_token secret now
            "1a96d102-7805-44f4-9a6e-67bffbf879ff" "admin"
          token_type := "bearer" }
  else
    match find_admin_by_email db email with
    | a :: _ =>
      if verify_password checkpw password a.passwordHash then
        .ok { access_token := create_access_token secret now a.id "admin"
              token_type := "bearer" }
      else
        match find_trainer_by_email db email with
        | t :: _ =>
          if verify_password checkpw password t.passwordHash then
            .ok { access_token := create_access_token secret now t.id "trainer"
                  token_type := "bearer" }
          else .error { statusCode := 401, detail := "Invalid credentials" }
        | [] => .error { statusCode := 401, detail := "Invalid credentials" }
    | [] =>
      match find_trainer_by_email db email with
      | t :: _ =>
        if verify_password checkpw password t.passwordHash then
          .ok { access_token := create_access_token secret now t.id "trainer"
                token_type := "bearer" }
        else .error { statusCode := 401, detail := "Invalid credentials" }
      | [] => .error { statusCode := 401, detail := "Invalid credentials" }

/-- register (main.py lines 273-367). hashpw models bcrypt password hashing
and newId the id the store assigns to the inserted trainer row. The checks
run in source order: code exists, is_used flag, truthy used_by, expiry,
then email uniqueness across both identity tables; only then is the trainer
inserted. The final write to the registration code is the one actually in
the source (main.py lines 345-351): it stores used_by = None and
is_used = False (the assignment of the new user id and True is commented
out at lines 340-343). -/
def register (hashpw : String → String)
    (newId : String) (now : Nat) (db : DB)
    (email password name code : String) :
    Except HTTPError (DB × UserInfo) :=
  match find_code_by_string db code with
  | [] => .error { statusCode := 400, detail := "Invalid or expired registration code" }
  | rc :: _ =>
    if rc.isUsed then
      .error { statusCode := 400, detail := "Registration code has already been used" }
    else if truthy rc.usedBy then
      .error { statusCode := 400, detail := "Registration code has already been used" }
    else if code_expired now rc then
      .error { statusCode := 400, detail := "Registration code has expired" }
    else if find_admin_by_email db email ≠ [] ∨ find_trainer_by_email db email ≠ [] then
      .error { statusCode := 400, detail := "User already exists" }
    else
      let newTrainer : Identity :=
        { id := newId, email := email, passwordHash := hashpw password,
          name := name, isActive := true }
      let db1 : DB := { db with trainers := db.trainers ++ [newTrainer] }
      let db2 : DB := { db1 with regCodes := db1.regCodes.map (fun c =>
        if c.code == code then { c with usedBy := none, isUsed := false } else c) }
      .ok (db2, { id := newId, email := email, name := name, role := "trainer" })

/-- Row effect of the supabase update at main.py line 736: set the is_used
column of a row whose id matches; leave every other column and row alone. -/
def mark_used (codeId : String) (c : RegCode) : RegCode :=
  if c.id == codeId then { c with isUsed := true } else c

/-- Row effect of the supabase update at main.py line 756: clear the
is_used column of a row whose id matches; used_by is not in the patch. -/
def mark_unused (codeId : String) (c : RegCode) : RegCode :=
  if c.id == codeId then { c with isUsed := false } else c

/-- deactivate_registration_code (main.py lines 724-742): admin gate, then
existence check, then update is_used := True on every row with the id. -/
def deactivate_registration_code (caller : CurrentUser) (db : DB)
    (codeId : String) : Except HTTPError (DB × String) :=
  match require_admin caller with
  | .error e => .error e
  | .ok _ =>
    match find_code_by_id db codeId with
    | [] => .error { statusCode := 404, detail := "Registration code not found" }
    | _ :: _ =>
      .ok ({ db with regCodes := db.regCodes.map (mark_used codeId) },
           "Registration code deactivated successfully")

/-- activate_registration_code (main.py lines 744-762): admin gate, then
existence check, then update is_used := False on every row with the id.
The used_by column is not part of the update. -/
def activate_registration_code (caller : CurrentUser) (db : DB)
    (codeId : String) : Except HTTPError (DB × String) :=
  match require_admin caller with
  | .error e => .error e
  | .ok _ =>
    match find_code_by_id db codeId with
    | [] => .error { statusCode := 404, detail := "Registration code not found" }
    | _ :: _ =>
      .ok ({ db with regCodes := db.regCodes.map (mark_unused codeId) },
           "Registration code activated successfully")

/-- delete_registration_code (main.py lines 764-786): admin gate, existence
check, refusal when the first matching row has is_used set, else delete of
every row with the id. -/
def delete_registration_code (caller : CurrentUser) (db : DB)
    (codeId : String) : Except HTTPError (DB × String) :=
  match require_admin caller with
  | .error e => .error e
  | .ok _ =>
    match find_code_by_id db codeId with
    | [] => .error { statusCode := 404, detail := "Registration code not found" }
    | rc :: _ =>
      if rc.isUsed then
        .error { statusCode := 400,
                 detail := "Cannot delete registration code that has been used" }
      else
        .ok ({ db with regCodes := db.regCodes.filter (fun c => !(c.id == codeId)) },
             "Registration code deleted successfully")

/-- Scoped lookup used by the question update / delete handlers (main.py
lines 1241, 1263): id and trainer_id must both match. -/
def find_question_scoped (db : DB) (questionId trainerId : String) :
    List Question :=
  db.questions.filter (fun q => q.id == questionId && q.trainerId == trainerId)

/-- update_trainer_question (main.py lines 1234-1255): trainer-or-admin
gate, scoped existence check (404 when empty), then an update of content /
step / updated_at applied by id. -/
def update_trainer_question (caller : CurrentUser) (now : Nat) (db : DB)
    (questionId : String) (questionText : Option String) (stepOrder : Option Nat) :
    Except HTTPError (DB × String) :=
  match require_trainer_or_admin caller with
  | .error e => .error e
  | .ok u =>
    match find_question_scoped db questionId u.id with
    | [] => .error { statusCode := 404, detail := "Question not found" }
    | _ :: _ =>
      .ok ({ db with questions := db.questions.map (fun q =>
              if q.id == questionId then
                { q with
                  content := match questionText with
                             | some t => t
                             | none => q.content
                  step := match stepOrder with
                          | some s => s
                          | none => q.step
                  updatedAt := some now }
              else q) },
           "Question updated successfully")

/-- delete_trainer_question (main.py lines 1257-1269): trainer-or-admin
gate, scoped existence check (404 when empty), then delete by id. -/
def delete_trainer_question (caller : CurrentUser) (db : DB)
    (questionId : String) : Except HTTPError (DB × String) :=
  match require_trainer_or_admin caller with
  | .error e => .error e
  | .ok u =>
    match find_question_scoped db questionId u.id with
    | [] => .error { statusCode := 404, detail := "Question not found" }
    | _ :: _ =>
      .ok ({ db with questions := db.questions.filter (fun q => !(q.id == questionId)) },
           "Question deleted successfully")

/-!
Concrete stores used to instantiate the theorems below.
-/

/-- An admin caller. -/
def admin1 : CurrentUser := { id := "a1", role := "admin" }

/-- A catalogue registration code in the active state, with no expiry. -/
def welcomeCode : RegCode :=
  { id := "rc1", code := "WELCOME10", createdBy := "a1",
    expiresAt := none, isUsed := false, usedBy := none }

/-- Store holding one active registration code and no identities. -/
def c1DB : DB :=
  { admins := [], trainers := [], regCodes := [welcomeCode], questions := [] }

/-- Expected store after the sample registration: the trainer row exists but
the registration code still carries is_used = false and used_by = None. -/
def c1ResultDB : DB :=
  { admins := []
    trainers := [{ id := "t-1", email := "new@x.com",
                   passwordHash := "$2b$12$pw123", name := "Name",
                   isActive := true }]
    regCodes := [welcomeCode]
    questions := [] }

/-- Store holding one redeemed registration code: used flag set and a
redeemer recorded. -/
def c2DB : DB :=
  { admins := [], trainers := [],
    regCodes := [{ id := "rc1", code := "WELCOME10", createdBy := "a1",
                   expiresAt := none, isUsed := true, usedBy := some "t-9" }],
    questions := [] }

/-- Expected store after activating the redeemed code: the used flag is
cleared but the redeemer reference survives. -/
def c2ResultDB : DB :=
  { admins := [], trainers := [],
    regCodes := [{ id := "rc1", code := "WELCOME10", createdBy := "a1",
                   expiresAt := none, isUsed := false, usedBy := some "t-9" }],
    questions := [] }

/-- Store holding a question owned by trainer t-owner. -/
def c3DB : DB :=
  { admins := [], trainers := [], regCodes := [],
    questions := [{ id := "q1", trainerId := "t-owner", categoryId := "cat1",
                    content := "How many meals per day?", step := 1,
                    updatedAt := none }] }

/-- A trainer caller who does not own question q1. -/
def otherTrainer : CurrentUser := { id := "t-other", role := "trainer" }

/-- Store with a used code (redeemed) and an expired code. -/
def c5DB : DB :=
  { admins := [], trainers := [],
    regCodes := [{ id := "rcU", code := "USEDCODE", createdBy := "a1",
                   expiresAt := none, isUsed := true, usedBy := some "t-9" },
                 { id := "rcE", code := "OLDCODE", createdBy := "a1",
                   expiresAt := some 50, isUsed := false, usedBy := none }],
    questions := [] }

/-- Store with one used and one active registration code. -/
def c6DB : DB :=
  { admins := [], trainers := [],
    regCodes := [{ id := "rcU", code := "USEDCODE", createdBy := "a1",
                   expiresAt := none, isUsed := true, usedBy := some "t-9" },
                 { id := "rcA", code := "FRESH", createdBy := "a1",
                   expiresAt := none, isUsed := false, usedBy := none }],
    questions := [] }

/-- Store in which the email taken@x.com is already a trainer identity and
an active registration code exists. -/
def c8DB : DB :=
  { admins := []
    trainers := [{ id := "t-5", email := "taken@x.com",
                   passwordHash := "$2b$12$h5", name := "Taken",
                   isActive := true }]
    regCodes := [welcomeCode]
    questions := [] }

/-- Store holding an admin row for the hardcoded development email, with a
stored hash the attempted password does not verify against. -/
def c9DB : DB :=
  { admins := [{ id := "a9", email := "admin@nutritionbot.com",
                 passwordHash := "$2b$12$realhash", name := "Root",
                 isActive := true }]
    trainers := [{ id := "t-3", email := "alice@x.com",
                   passwordHash := "$2b$12$alice", name := "Alice",
                   isActive := true }]
    regCodes := []
    questions := [] }

/-- Bcrypt verifier model under which every password check fails: the
attempted password is wrong for every stored digest. -/
def alwaysWrong : String → String → Option Bool := fun _ _ => some false

/-!
Theorems settling the claims.
-/

/-- C4: a token issued at time T embeds expiry T + 180 minutes exactly, so
decoding with the right secret succeeds at T + 179 minutes and fails (the
token is invalid) at T + 181 minutes. -/
theorem token_ttl_boundary (secret sub utype : String) (t : Nat) :
    (create_access_token secret t sub utype).payload.exp = t + 180 * 60 ∧
    jwt_decode secret (t + 179 * 60) (create_access_token secret t sub utype) =
      some (create_access_token secret t sub utype).payload ∧
    jwt_decode secret (t + 181 * 60) (create_access_token secret t sub utype) = none := by
  refine ⟨rfl, ?_, ?_⟩
  · unfold jwt_decode create_access_token ACCESS_TOKEN_EXPIRE_MINUTES
    dsimp only
    rw [if_pos]
    exact ⟨rfl, by omega⟩
  · unfold jwt_decode create_access_token ACCESS_TOKEN_EXPIRE_MINUTES
    dsimp only
    rw [if_neg]
    rintro ⟨-, h2⟩
    omega

/-- C7: verify_password reports plain failure (false), and cannot throw, on
any stored digest that does not carry a bcrypt algorithm tag, whatever the
underlying bcrypt check would say. -/
theorem verify_password_rejects_malformed
    (checkpw : String → String → Option Bool) (password hashed : String)
    (h : valid_bcrypt_format hashed = false) :
    verify_password checkpw password hashed = false := by
  simp [verify_password, h]

/-- Witness for C7: the digest md5$deadbeef has no bcrypt tag and is
rejected even when the underlying check would accept anything. -/
theorem verify_password_rejects_malformed_witness :
    valid_bcrypt_format "md5$deadbeef" = false ∧
    verify_password (fun _ _ => some true) "pw" "md5$deadbeef" = false :=
  ⟨by decide,
   verify_password_rejects_malformed (fun _ _ => some true) "pw" "md5$deadbeef"
     (by decide)⟩

/-- C1 (evidence for the code bug): a successful registration through the
active code WELCOME10 creates the trainer, yet the stored registration code
still has is_used = false and used_by = None afterwards; the source writes
those constants (main.py lines 345-351) instead of True and the new id. -/
theorem register_does_not_mark_code_used :
    register (fun p => "$2b$12$" ++ p) "t-1" 100 c1DB
      "new@x.com" "pw123" "Name" "WELCOME10" =
      .ok (c1ResultDB,
           { id := "t-1", email := "new@x.com", name := "Name", role := "trainer" }) ∧
    c1ResultDB.regCodes.map (fun c => (c.isUsed, c.usedBy)) = [(false, none)] :=
  ⟨rfl, rfl⟩

/-- The is_used patch does not touch the id column. -/
theorem mark_used_id (codeId : String) (c : RegCode) :
    (mark_used codeId c).id = c.id := by
  cases h : c.id == codeId <;> simp [mark_used, h]

/-- Applying the is_used patch twice is the same as applying it once. -/
theorem mark_used_idem (codeId : String) (c : RegCode) :
    mark_used codeId (mark_used codeId c) = mark_used codeId c := by
  cases h : c.id == codeId <;> simp [mark_used, h]

/-- The is_used := False patch does not touch the used_by column. -/
theorem mark_unused_usedBy (codeId : String) (c : RegCode) :
    (mark_unused codeId c).usedBy = c.usedBy := by
  cases h : c.id == codeId <;> simp [mark_unused, h]

/-- C2 counterexample: activating the redeemed code rc1 leaves its used_by
column set to t-9; the redeemer reference is not cleared, contrary to the
claim that both fields are reset. -/
theorem activate_keeps_redeemer_reference :
    activate_registration_code admin1 c2DB "rc1" =
      .ok (c2ResultDB, "Registration code activated successfully") ∧
    c2ResultDB.regCodes.map RegCode.usedBy = [some "t-9"] ∧
    c2ResultDB.regCodes.map RegCode.usedBy ≠ [none] :=
  ⟨rfl, rfl, by decide⟩

/-- C2 amended: for every existing registration code, activateCode called by
an admin succeeds and clears the used flag of every row with that id, but it
leaves the used_by column of the whole table unchanged: a previously
redeemed code keeps its redeemer reference. -/
theorem activate_clears_used_flag_only (caller : CurrentUser) (db : DB)
    (codeId : String) (hAdmin : caller.role = "admin")
    (hex : find_code_by_id db codeId ≠ []) :
    ∃ db', activate_registration_code caller db codeId =
        .ok (db', "Registration code activated successfully") ∧
      (∀ c ∈ db'.regCodes, c.id = codeId → c.isUsed = false) ∧
      db'.regCodes.map RegCode.usedBy = db.regCodes.map RegCode.usedBy := by
  cases hfind : find_code_by_id db codeId with
  | nil => exact absurd hfind hex
  | cons rc rest =>
    refine ⟨{ db with regCodes := db.regCodes.map (mark_unused codeId) }, ?_, ?_, ?_⟩
    · simp [activate_registration_code, require_admin, hAdmin, hfind]
    · intro c hc hcid
      rcases List.mem_map.mp hc with ⟨a, _, rfl⟩
      cases h2 : a.id == codeId with
      | true => simp [mark_unused, h2]
      | false =>
        rw [show mark_unused codeId a = a by simp [mark_unused, h2]] at hcid
        exact absurd hcid (by simpa using h2)
    · rw [List.map_map]
      exact List.map_congr_left (fun a _ => mark_unused_usedBy codeId a)

/-- Witness for C2's amended claim: instantiated on the store holding the
redeemed code rc1. -/
theorem activate_clears_used_flag_only_witness :
    admin1.role = "admin" ∧ find_code_by_id c2DB "rc1" ≠ [] ∧
    (∃ db', activate_registration_code admin1 c2DB "rc1" =
        .ok (db', "Registration code activated successfully") ∧
      (∀ c ∈ db'.regCodes, c.id = "rc1" → c.isUsed = false) ∧
      db'.regCodes.map RegCode.usedBy = c2DB.regCodes.map RegCode.usedBy) :=
  ⟨rfl, by decide,
   activate_clears_used_flag_only admin1 c2DB "rc1" rfl (by decide)⟩

/-- C10: for every existing registration code, deactivateCode called by an
admin succeeds and forces the used flag of every row with that id to true,
and the operation is idempotent: calling it again on the resulting store is
a no-op that still reports success. -/
theorem deactivate_forces_used_and_idempotent (caller : CurrentUser) (db : DB)
    (codeId : String) (hAdmin : caller.role = "admin")
    (hex : find_code_by_id db codeId ≠ []) :
    ∃ db', deactivate_registration_code caller db codeId =
        .ok (db', "Registration code deactivated successfully") ∧
      (∀ c ∈ db'.regCodes, c.id = codeId → c.isUsed = true) ∧
      deactivate_registration_code caller db' codeId =
        .ok (db', "Registration code deactivated successfully") := by
  cases hfind : find_code_by_id db codeId with
  | nil => exact absurd hfind hex
  | cons rc rest =>
    have hrc : rc ∈ find_code_by_id db codeId := hfind ▸ List.mem_cons_self rc rest
    have hrc' : rc ∈ db.regCodes.filter (fun c => c.id == codeId) := hrc
    have hrcMem : rc ∈ db.regCodes := (List.mem_filter.mp hrc').1
    have hrcId : (rc.id == codeId) = true := (List.mem_filter.mp hrc').2
    refine ⟨{ db with regCodes := db.regCodes.map (mark_used codeId) }, ?_, ?_, ?_⟩
    · simp [deactivate_registration_code, require_admin, hAdmin, hfind]
    · intro c hc hcid
      rcases List.mem_map.mp hc with ⟨a, _, rfl⟩
      cases h2 : a.id == codeId with
      | true => simp [mark_used, h2]
      | false =>
        rw [show mark_used codeId a = a by simp [mark_used, h2]] at hcid
        exact absurd hcid (by simpa using h2)
    · have hmem2 : mark_used codeId rc ∈
          find_code_by_id { db with regCodes := db.regCodes.map (mark_used codeId) } codeId := by
        apply List.mem_filter.mpr
        refine ⟨List.mem_map_of_mem (mark_used codeId) hrcMem, ?_⟩
        rw [mark_used_id]
        exact hrcId
      have hne2 : find_code_by_id
          { db with regCodes := db.regCodes.map (mark_used codeId) } codeId ≠ [] :=
        List.ne_nil_of_mem hmem2
      cases hfind2 : find_code_by_id
          { db with regCodes := db.regCodes.map (mark_used codeId) } codeId with
      | nil => exact absurd hfind2 hne2
      | cons rc2 rest2 =>
        have hmap : (db.regCodes.map (mark_used codeId)).map (mark_used codeId) =
            db.regCodes.map (mark_used codeId) := by
          rw [List.map_map]
          exact List.map_congr_left (fun a _ => mark_used_idem codeId a)
        simp [deactivate_registration_code, require_admin, hAdmin, hfind2, hmap]

/-- Witness for C10: instantiated on the store holding the already-used code
rcU of c6DB; deactivating an already-used code is a successful no-op. -/
theorem deactivate_forces_used_and_idempotent_witness :
    admin1.role = "admin" ∧ find_code_by_id c6DB "rcU" ≠ [] ∧
    (∃ db', deactivate_registration_code admin1 c6DB "rcU" =
        .ok (db', "Registration code deactivated successfully") ∧
      (∀ c ∈ db'.regCodes, c.id = "rcU" → c.isUsed = true) ∧
      deactivate_registration_code admin1 db' "rcU" =
        .ok (db', "Registration code deactivated successfully")) :=
  ⟨rfl, by decide,
   deactivate_forces_used_and_idempotent admin1 c6DB "rcU" rfl (by decide)⟩

/-- C3: when every question row carrying the requested id is owned by a
trainer other than the caller, a Trainer caller's update and delete both
fail with 404 Question not found — the scoped lookup comes back empty — and
in particular not with 403, so foreign rows are indistinguishable from
absent ones. -/
theorem cross_trainer_question_not_found (caller : CurrentUser) (now : Nat)
    (db : DB) (q : Question) (questionId : String)
    (questionText : Option String) (stepOrder : Option Nat)
    (hRole : caller.role = "trainer")
    (hq : q ∈ db.questions) (hqid : q.id = questionId)
    (hScope : ∀ r ∈ db.questions, r.id = questionId → r.trainerId ≠ caller.id) :
    update_trainer_question caller now db questionId questionText stepOrder =
      .error { statusCode := 404, detail := "Question not found" } ∧
    delete_trainer_question caller db questionId =
      .error { statusCode := 404, detail := "Question not found" } := by
  have hgate : require_trainer_or_admin caller = .ok caller := by
    unfold require_trainer_or_admin
    rw [if_pos (Or.inr hRole)]
  have hempty : find_question_scoped db questionId caller.id = [] := by
    apply List.filter_eq_nil_iff.mpr
    intro r hr hcontra
    rw [Bool.and_eq_true, beq_iff_eq, beq_iff_eq] at hcontra
    exact hScope r hr hcontra.1 hcontra.2
  constructor
  · simp [update_trainer_question, hgate, hempty]
  · simp [delete_trainer_question, hgate, hempty]

/-- Witness for C3: trainer t-other acting on question q1 owned by trainer
t-owner receives 404 from both update and delete. -/
theorem cross_trainer_question_not_found_witness :
    otherTrainer.role = "trainer" ∧
    update_trainer_question otherTrainer 100 c3DB "q1" none none =
      .error { statusCode := 404, detail := "Question not found" } ∧
    delete_trainer_question otherTrainer c3DB "q1" =
      .error { statusCode := 404, detail := "Question not found" } := by
  have h := cross_trainer_question_not_found otherTrainer 100 c3DB
    { id := "q1", trainerId := "t-owner", categoryId := "cat1",
      content := "How many meals per day?", step := 1, updatedAt := none }
    "q1" none none rfl (by decide) rfl (by decide)
  exact ⟨rfl, h.1, h.2⟩

/-- C5: the error paths of register, in source order — a missing code string
yields the invalid-code error; a code whose used flag or redeemer reference
is set yields the already-used error; an otherwise-clean code whose stored
expiry lies strictly before now yields the expired error. -/
theorem register_code_error_paths (hashpw : String → String) (newId : String)
    (now : Nat) (db : DB) (email password name code : String) :
    (find_code_by_string db code = [] →
      register hashpw newId now db email password name code =
        .error { statusCode := 400, detail := "Invalid or expired registration code" }) ∧
    (∀ rc rest, find_code_by_string db code = rc :: rest →
      (rc.isUsed = true ∨ truthy rc.usedBy = true) →
      register hashpw newId now db email password name code =
        .error { statusCode := 400, detail := "Registration code has already been used" }) ∧
    (∀ rc rest, find_code_by_string db code = rc :: rest →
      rc.isUsed = false → truthy rc.usedBy = false → code_expired now rc = true →
      register hashpw newId now db email password name code =
        .error { statusCode := 400, detail := "Registration code has expired" }) := by
  refine ⟨?_, ?_, ?_⟩
  · intro h
    simp [register, h]
  · intro rc rest hfind hused
    rcases hused with hu | hub
    · simp [register, hfind, hu]
    · cases hu2 : rc.isUsed with
      | true => simp [register, hfind, hu2]
      | false => simp [register, hfind, hu2, hub]
  · intro rc rest hfind h1 h2 h3
    simp [register, hfind, h1, h2, h3]

/-- Witness for C5: on c5DB, an unknown code string, the redeemed code
USEDCODE, and the stale code OLDCODE (expiry 50, now 100) produce the three
errors. -/
theorem register_code_error_paths_witness :
    register (fun p => "$2b$12$" ++ p) "t-1" 100 c5DB "a@x.com" "pw" "N" "NOSUCH" =
      .error { statusCode := 400, detail := "Invalid or expired registration code" } ∧
    register (fun p => "$2b$12$" ++ p) "t-1" 100 c5DB "a@x.com" "pw" "N" "USEDCODE" =
      .error { statusCode := 400, detail := "Registration code has already been used" } ∧
    register (fun p => "$2b$12$" ++ p) "t-1" 100 c5DB "a@x.com" "pw" "N" "OLDCODE" =
      .error { statusCode := 400, detail := "Registration code has expired" } := by
  refine ⟨?_, ?_, ?_⟩
  · exact (register_code_error_paths (fun p => "$2b$12$" ++ p) "t-1" 100 c5DB
      "a@x.com" "pw" "N" "NOSUCH").1 (by decide)
  · exact (register_code_error_paths (fun p => "$2b$12$" ++ p) "t-1" 100 c5DB
      "a@x.com" "pw" "N" "USEDCODE").2.1
      { id := "rcU", code := "USEDCODE", createdBy := "a1",
        expiresAt := none, isUsed := true, usedBy := some "t-9" } []
      (by decide) (Or.inl rfl)
  · exact (register_code_error_paths (fun p => "$2b$12$" ++ p) "t-1" 100 c5DB
      "a@x.com" "pw" "N" "OLDCODE").2.2
      { id := "rcE", code := "OLDCODE", createdBy := "a1",
        expiresAt := some 50, isUsed := false, usedBy := none } []
      (by decide) rfl rfl (by decide)

/-- C6: on a store whose first code row with the requested id exists, delete
fails with the cannot-delete-used error exactly when the used flag is set,
and otherwise succeeds with a store in which a lookup of that id comes back
empty. -/
theorem delete_code_used_guard (caller : CurrentUser) (db : DB)
    (codeId : String) (rc : RegCode) (rest : List RegCode)
    (hAdmin : caller.role = "admin")
    (hfind : find_code_by_id db codeId = rc :: rest) :
    (rc.isUsed = true →
      delete_registration_code caller db codeId =
        .error { statusCode := 400,
                 detail := "Cannot delete registration code that has been used" }) ∧
    (rc.isUsed = false →
      ∃ db', delete_registration_code caller db codeId =
          .ok (db', "Registration code deleted successfully") ∧
        find_code_by_id db' codeId = []) := by
  have hgate : require_admin caller = .ok caller := by
    unfold require_admin
    rw [if_pos hAdmin]
  constructor
  · intro hu
    simp [delete_registration_code, hgate, hfind, hu]
  · intro hu
    refine ⟨{ db with regCodes := db.regCodes.filter (fun c => !(c.id == codeId)) }, ?_, ?_⟩
    · simp [delete_registration_code, hgate, hfind, hu]
    · unfold find_code_by_id
      dsimp only
      rw [List.filter_filter]
      apply List.filter_eq_nil_iff.mpr
      intro a _
      simp

/-- Witness for C6: deleting the used code rcU of c6DB fails, deleting the
active code rcA succeeds and its id then resolves to nothing. -/
theorem delete_code_used_guard_witness :
    delete_registration_code admin1 c6DB "rcU" =
      .error { statusCode := 400,
               detail := "Cannot delete registration code that has been used" } ∧
    (∃ db', delete_registration_code admin1 c6DB "rcA" =
        .ok (db', "Registration code deleted successfully") ∧
      find_code_by_id db' "rcA" = []) := by
  constructor
  · exact (delete_code_used_guard admin1 c6DB "rcU"
      { id := "rcU", code := "USEDCODE", createdBy := "a1",
        expiresAt := none, isUsed := true, usedBy := some "t-9" } []
      rfl (by decide)).1 rfl
  · exact (delete_code_used_guard admin1 c6DB "rcA"
      { id := "rcA", code := "FRESH", createdBy := "a1",
        expiresAt := none, isUsed := false, usedBy := none } []
      rfl (by decide)).2 rfl

/-- C8: once the registration code checks pass, register consults both
identity tables for the email, and an email present in either table makes
the whole call fail with the user-already-exists conflict; no trainer row
is inserted because the error is raised before the insert. -/
theorem register_email_conflict (hashpw : String → String) (newId : String)
    (now : Nat) (db : DB) (email password name code : String)
    (rc : RegCode) (rest : List RegCode)
    (hfind : find_code_by_string db code = rc :: rest)
    (hu : rc.isUsed = false) (hub : truthy rc.usedBy = false)
    (hexp : code_expired now rc = false)
    (hemail : find_admin_by_email db email ≠ [] ∨ find_trainer_by_email db email ≠ []) :
    register hashpw newId now db email password name code =
      .error { statusCode := 400, detail := "User already exists" } := by
  simp [register, hfind, hu, hub, hexp, hemail]

/-- Witness for C8: registering taken@x.com through the active code
WELCOME10 on c8DB fails with the conflict because a trainer already holds
that email. -/
theorem register_email_conflict_witness :
    find_trainer_by_email c8DB "taken@x.com" ≠ [] ∧
    register (fun p => "$2b$12$" ++ p) "t-1" 100 c8DB "taken@x.com" "pw" "N" "WELCOME10" =
      .error { statusCode := 400, detail := "User already exists" } := by
  refine ⟨by decide, ?_⟩
  exact register_email_conflict (fun p => "$2b$12$" ++ p) "t-1" 100 c8DB
    "taken@x.com" "pw" "N" "WELCOME10" welcomeCode []
    (by decide) rfl rfl rfl (Or.inr (by decide))

/-- C9 counterexample: with the password admin123 — which fails bcrypt
verification against every stored digest, so it is a wrong password for the
existing admin row — login against the existing email
admin@nutritionbot.com succeeds through the hardcoded development branch,
while the same password against the absent email ghost@x.com yields 401, so
the two outcomes differ and reveal the special account. -/
theorem login_backdoor_existence_leak :
    verify_password alwaysWrong "admin123" "$2b$12$realhash" = false ∧
    find_admin_by_email c9DB "admin@nutritionbot.com" ≠ [] ∧
    find_admin_by_email c9DB "ghost@x.com" = [] ∧
    find_trainer_by_email c9DB "ghost@x.com" = [] ∧
    login alwaysWrong "secret" 0 c9DB "admin@nutritionbot.com" "admin123" =
      .ok { access_token := create_access_token "secret" 0
              "1a96d102-7805-44f4-9a6e-67bffbf879ff" "admin",
            token_type := "bearer" } ∧
    login alwaysWrong "secret" 0 c9DB "ghost@x.com" "admin123" =
      .error { statusCode := 401, detail := "Invalid credentials" } :=
  ⟨by decide, by decide, by decide, by decide, rfl, rfl⟩

/-- C9 amended: excluding the hardcoded development credential pair, a
password that fails verification against every stored digest produces the
same 401 Unauthorized outcome whether the attempted email exists in the
identity tables or not. -/
theorem login_no_existence_leak (checkpw : String → String → Option Bool)
    (secret : String) (now : Nat) (db : DB) (e1 e2 password : String)
    (hx1 : find_admin_by_email db e1 ≠ [] ∨ find_trainer_by_email db e1 ≠ [])
    (hx2a : find_admin_by_email db e2 = [])
    (hx2t : find_trainer_by_email db e2 = [])
    (hwA : ∀ a ∈ db.admins, verify_password checkpw password a.passwordHash = false)
    (hwT : ∀ t ∈ db.trainers, verify_password checkpw password t.passwordHash = false)
    (hb1 : ¬(e1 = "admin@nutritionbot.com" ∧ password = "admin123"))
    (hb2 : ¬(e2 = "admin@nutritionbot.com" ∧ password = "admin123")) :
    login checkpw secret now db e1 password =
      .error { statusCode := 401, detail := "Invalid credentials" } ∧
    login checkpw secret now db e2 password =
      .error { statusCode := 401, detail := "Invalid credentials" } := by
  have key : ∀ e : String, ¬(e = "admin@nutritionbot.com" ∧ password = "admin123") →
      login checkpw secret now db e password =
        .error { statusCode := 401, detail := "Invalid credentials" } := by
    intro e hb
    unfold login
    rw [if_neg hb]
    cases hA : find_admin_by_email db e with
    | nil =>
      cases hT : find_trainer_by_email db e with
      | nil => simp
      | cons t ts =>
        have ht0 : t ∈ find_trainer_by_email db e := by
          rw [hT]
          exact List.mem_cons_self t ts
        have ht' : t ∈ db.trainers.filter (fun x => x.email == e) := ht0
        simp [hwT t (List.mem_filter.mp ht').1]
    | cons a as =>
      have ha0 : a ∈ find_admin_by_email db e := by
        rw [hA]
        exact List.mem_cons_self a as
      have ha' : a ∈ db.admins.filter (fun x => x.email == e) := ha0
      cases hT : find_trainer_by_email db e with
      | nil => simp [hwA a (List.mem_filter.mp ha').1]
      | cons t ts =>
        have ht0 : t ∈ find_trainer_by_email db e := by
          rw [hT]
          exact List.mem_cons_self t ts
        have ht' : t ∈ db.trainers.filter (fun x => x.email == e) := ht0
        simp [hwA a (List.mem_filter.mp ha').1, hwT t (List.mem_filter.mp ht').1]
  exact ⟨key e1 hb1, key e2 hb2⟩

/-- Witness for C9's amended claim: the wrong password wrongpw against the
existing trainer email alice@x.com and against the absent email ghost@x.com
produces the same 401 on c9DB. -/
theorem login_no_existence_leak_witness :
    (find_admin_by_email c9DB "alice@x.com" ≠ [] ∨
      find_trainer_by_email c9DB "alice@x.com" ≠ []) ∧
    find_admin_by_email c9DB "ghost@x.com" = [] ∧
    login alwaysWrong "secret" 0 c9DB "alice@x.com" "wrongpw" =
      .error { statusCode := 401, detail := "Invalid credentials" } ∧
    login alwaysWrong "secret" 0 c9DB "ghost@x.com" "wrongpw" =
      .error { statusCode := 401, detail := "Invalid credentials" } := by
  have h := login_no_existence_leak alwaysWrong "secret" 0 c9DB
    "alice@x.com" "ghost@x.com" "wrongpw"
    (Or.inr (by decide)) (by decide) (by decide)
    (by decide) (by decide) (by decide) (by decide)
  exact ⟨Or.inr (by decide), by decide, h.1, h.2⟩

end NutritionBot
